import Mathlib

/-
  Verification development for the MCU repository (mcv).

  The definitions below are a shallow embedding of the Go sources:
    - package devices       (src/unnamed/part_003, src/unnamed/part_002)
    - package cache         (src/mcv/pkg/cache/vllm.go)
    - package constants     (src/mcv/pkg/constants/constants.go)
    - the mcv CLI front-end (src/unnamed/part_000)

  Go maps over string or enum keys are embedded as association lists with
  the lookup, insert and erase operations used by the source; Go time.Time
  values are embedded as Int nanosecond counts (Go time.Duration is an
  int64 nanosecond count, so 10 minutes is 600000000000); file contents
  that the source JSON-decodes are embedded as an abstract file state that
  is either absent, corrupt (present but not decodable) or a decoded
  value, with encode/decode modelled as the identity on decoded values.
-/

namespace MCU

/-! ## Association-list operations embedding Go map lookup, assign, delete -/

def lookupKey {α β : Type} [DecidableEq α] : List (α × β) → α → Option β
  | [], _ => none
  | (a, b) :: rest, k => if a = k then some b else lookupKey rest k

def insertKey {α β : Type} [DecidableEq α] : List (α × β) → α → β → List (α × β)
  | [], k, v => [(k, v)]
  | (a, b) :: rest, k, v =>
    if a = k then (k, v) :: rest else (a, b) :: insertKey rest k v

def eraseKey {α β : Type} [DecidableEq α] : List (α × β) → α → List (α × β)
  | [], _ => []
  | (a, b) :: rest, k => if a = k then rest else (a, b) :: eraseKey rest k

/-! ## Package devices: data model (src/unnamed/part_003) -/

inductive DeviceType
  | MOCK
  | AMD
  | NVML
  | ROCM
deriving DecidableEq

/-- Modelled from the spec: the value of config.GPU (package config is not
under src); the spec's hardware type for GPU accelerators is the string
gpu (spec section 8, scenario 4: hwType="gpu"). -/
def GPU : String := "gpu"

structure TritonGPUInfo where
  name : String
  uuid : String
  computeCapability : String
  arch : String
  warpSize : Nat
  memoryTotalMB : Nat
  ptxVersion : Nat
  backend : String
  id : Nat
deriving DecidableEq

structure DeviceSummary where
  id : String
  driverVersion : String
  productName : String
deriving DecidableEq

/-- A Device as produced by a deviceStartupFunc.  The Go Device interface
methods Name, DevType, HwType are pure accessors; GetAllGPUInfo and
GetAllSummaries are fallible and embedded as Option-valued fields
(none embeds the error return). -/
structure Device where
  name : String
  devType : DeviceType
  hwType : String
  gpuInfo : Option (List TritonGPUInfo)
  summaries : Option (List DeviceSummary)
deriving DecidableEq

structure CachedDevice where
  name : String
  deviceType : DeviceType
  hwType : String
  tritonInfo : List TritonGPUInfo
  summaries : List DeviceSummary
deriving DecidableEq

structure DeviceCache where
  timestamp : Int
  devices : List (String × CachedDevice)
deriving DecidableEq

/-! ## Package devices: registry (src/unnamed/part_003 lines 150-202)

A deviceStartupFunc is a nullary Go function returning a Device; it is
embedded as the Device it returns. -/

abbrev InnerReg := List (DeviceType × Device)

structure Registry where
  registry : List (String × InnerReg)
deriving DecidableEq

def regInner (r : Registry) (a : String) : InnerReg :=
  (lookupKey r.registry a).getD []

/-- Go r.Registry[a][d]: a missing outer key reads as the empty inner map. -/
def regLookup (r : Registry) (a : String) (d : DeviceType) : Option Device :=
  lookupKey (regInner r a) d

/-- MustRegister: if (a, d) is present, a no-op; otherwise assigns a fresh
single-entry inner map to key a (replacing any previous inner map). -/
def Registry.mustRegister (r : Registry) (a : String) (d : DeviceType)
    (deviceStartup : Device) : Registry :=
  if (regLookup r a d).isSome then r
  else { registry := insertKey r.registry a [(d, deviceStartup)] }

def unregAux (d : DeviceType) : List (String × InnerReg) → List (String × InnerReg)
  | [] => []
  | (a, inner) :: rest =>
    if (lookupKey inner d).isSome then (a, eraseKey inner d) :: rest
    else (a, inner) :: unregAux d rest

/-- Unregister: deletes d from the first hardware-type map that contains it
(the Go range order over the outer map is embedded as list order). -/
def Registry.unregister (r : Registry) (d : DeviceType) : Registry :=
  { registry := unregAux d r.registry }

/-- addDeviceInterface (src/unnamed/part_003 lines 179-202). -/
def addDeviceInterface (r : Registry) (dtype : DeviceType) (accType : String)
    (deviceStartup : Device) : Except String Registry :=
  if accType = GPU then
    match dtype with
    | DeviceType.AMD =>
      Except.ok ((r.unregister DeviceType.ROCM).mustRegister accType dtype deviceStartup)
    | DeviceType.ROCM =>
      if (regLookup r GPU DeviceType.AMD).isSome then
        Except.error "AMD already registered. Skipping ROCM"
      else
        Except.ok (r.mustRegister accType dtype deviceStartup)
    | _ => Except.ok (r.mustRegister accType dtype deviceStartup)
  else
    Except.ok (r.mustRegister accType dtype deviceStartup)

/-! ## Package devices: cache and static-config files -/

def cacheFilePath : String := "/tmp/device_cache.json"

def cacheTTL : Int := 600000000000

/-- Abstract state of a JSON file on disk. -/
inductive FileState
  | absent
  | corrupt
  | content (c : DeviceCache)
deriving DecidableEq

/-- The parts of the world that Startup reads and writes: the static
device-config file, the device-cache file and the current time. -/
structure World where
  staticFile : FileState
  cacheFile : FileState
  now : Int
deriving DecidableEq

inductive CacheMiss
  | notPresent
  | corrupt
  | expired
deriving DecidableEq

/-- loadCache (src/unnamed/part_003 lines 204-225): open, decode, then
reject when time.Since(cache.Timestamp) > cacheTTL. -/
def loadCache (fs : FileState) (now : Int) : Except CacheMiss DeviceCache :=
  match fs with
  | FileState.absent => Except.error CacheMiss.notPresent
  | FileState.corrupt => Except.error CacheMiss.corrupt
  | FileState.content c =>
    if cacheTTL < now - c.timestamp then Except.error CacheMiss.expired
    else Except.ok c

/-- loadStaticConfig (src/unnamed/part_003 lines 228-244): open and decode,
with no TTL check. -/
def loadStaticConfig (fs : FileState) : Except CacheMiss DeviceCache :=
  match fs with
  | FileState.absent => Except.error CacheMiss.notPresent
  | FileState.corrupt => Except.error CacheMiss.corrupt
  | FileState.content c => Except.ok c

def mkCachedDevice (dev : Device) (ti : List TritonGPUInfo)
    (su : List DeviceSummary) : CachedDevice :=
  { name := dev.name
  , deviceType := dev.devType
  , hwType := dev.hwType
  , tritonInfo := ti
  , summaries := su }

/-- The DeviceCache value that saveCache (src/unnamed/part_003 lines
246-282) serializes: timestamp time.Now(), and one CachedDevice per input
device whose GetAllGPUInfo and GetAllSummaries calls both succeed (a
failing device is skipped with an error log). -/
def saveCacheValue (now : Int) (devices : List (String × Device)) : DeviceCache :=
  { timestamp := now
  , devices := devices.foldl (fun acc p =>
      match p.2.gpuInfo with
      | none => acc
      | some ti =>
        match p.2.summaries with
        | none => acc
        | some su => acc ++ [(p.1, mkCachedDevice p.2 ti su)]) [] }

/-- The filesystem calls saveCache makes, in order. -/
inductive FsOp
  | create (path : String)
  | write (path : String)
  | rename (src : String) (dst : String)
deriving DecidableEq

/-- saveCache opens the cache path itself with os.Create and encodes the
snapshot straight into it; the trace is the same for every input. -/
def saveCacheOps (_devices : List (String × Device)) : List FsOp :=
  [FsOp.create cacheFilePath, FsOp.write cacheFilePath]

/-! ## Package devices: Startup (src/unnamed/part_003 lines 284-340) -/

inductive Effect
  | readStatic
  | readCache
  | probe (d : DeviceType)
  | writeCache
deriving DecidableEq

structure StartupResult where
  device : Option Device
  world : World
  effects : List Effect
deriving DecidableEq

/-- Step 3 of Startup: range over registry.Registry[a] and return the first
startup function's device, saving it to the cache file.  The inner map
holds at most one entry under the source's registration discipline, so
list order embeds the unspecified Go map range order. -/
def probeStep (r : Registry) (w : World) (a : String) (eff : List Effect) :
    StartupResult :=
  match regInner r a with
  | [] => { device := none, world := w, effects := eff }
  | (d, dev) :: _ =>
    { device := some dev
    , world := { w with cacheFile := FileState.content (saveCacheValue w.now [(a, dev)]) }
    , effects := eff ++ [Effect.probe d, Effect.writeCache] }

def Startup (r : Registry) (w : World) (a : String) : StartupResult :=
  match loadStaticConfig w.staticFile with
  | Except.ok staticConfig =>
    match lookupKey staticConfig.devices a with
    | some cachedDevice =>
      match regLookup r a cachedDevice.deviceType with
      | some dev => { device := some dev, world := w, effects := [Effect.readStatic] }
      | none => { device := none, world := w, effects := [Effect.readStatic] }
    | none => { device := none, world := w, effects := [Effect.readStatic] }
  | Except.error _ =>
    match loadCache w.cacheFile w.now with
    | Except.ok cache =>
      match lookupKey cache.devices a with
      | some cachedDevice =>
        match regLookup r a cachedDevice.deviceType with
        | some dev =>
          { device := some dev, world := w
          , effects := [Effect.readStatic, Effect.readCache] }
        | none => probeStep r w a [Effect.readStatic, Effect.readCache]
      | none => probeStep r w a [Effect.readStatic, Effect.readCache]
    | Except.error _ => probeStep r w a [Effect.readStatic, Effect.readCache]

/-- A fresh cache hit that Startup can use: the cache loads, holds an entry
for the requested hardware type, and a startup function is registered for
the recorded device type. -/
def cacheHit (r : Registry) (w : World) (a : String) : Prop :=
  ∃ c cd dev, loadCache w.cacheFile w.now = Except.ok c ∧
    lookupKey c.devices a = some cd ∧
    regLookup r a cd.deviceType = some dev

/-! ## Package cache: vLLM cache detection and summary
(src/mcv/pkg/cache/vllm.go) -/

/-- Modelled from the spec: the KernelMetadata compatibility tuple
(arch, backend, warp size, PTX version) of one cache entry; the Triton
cache reader that produces it is not under src. -/
structure KernelMetadataM where
  arch : String
  backend : String
  warpSize : Nat
  ptxVersion : Nat
deriving DecidableEq

/-- Modelled from the spec: the Triton cache reader's result (the
TritonCache type and its allMetadata field are not under src); it carries
the per-entry metadata list that Summary consumes. -/
structure TritonCacheM where
  allMetadata : List KernelMetadataM
deriving DecidableEq

/-- Modelled from the spec: one group of the CompatibilitySummary, a
distinct compatibility tuple with the count of entries carrying it. -/
structure SummaryGroup where
  arch : String
  backend : String
  warpSize : Nat
  ptxVersion : Nat
  count : Nat
deriving DecidableEq

def sgLE (a b : SummaryGroup) : Bool :=
  if a.arch ≠ b.arch then decide (a.arch < b.arch)
  else if a.backend ≠ b.backend then decide (a.backend < b.backend)
  else if a.warpSize ≠ b.warpSize then decide (a.warpSize < b.warpSize)
  else decide (a.ptxVersion ≤ b.ptxVersion)

def insSorted (x : SummaryGroup) : List SummaryGroup → List SummaryGroup
  | [] => [x]
  | y :: ys => if sgLE x y then x :: y :: ys else y :: insSorted x ys

def sortGroups (l : List SummaryGroup) : List SummaryGroup :=
  l.foldr insSorted []

def dedupTuples (entries : List KernelMetadataM) : List KernelMetadataM :=
  entries.foldl (fun acc e => if e ∈ acc then acc else acc ++ [e]) []

/-- Modelled from the spec: BuildTritonSummary (not under src) groups the
entries by their compatibility tuple, emits one group per distinct tuple
with its count, sorted lexicographically on the tuple. -/
def buildTritonSummary (entries : List KernelMetadataM) : List SummaryGroup :=
  sortGroups ((dedupTuples entries).map (fun t =>
    { arch := t.arch, backend := t.backend, warpSize := t.warpSize
    , ptxVersion := t.ptxVersion
    , count := entries.countP (fun e => e = t) }))

structure VLLMCacheMetadataM where
  vllmHash : String
  tritonCacheEntries : List KernelMetadataM
deriving DecidableEq

/-- VLLMCache (vllm.go lines 31-37); rootPath, count, the single
tritonCache field and allMetadata as in the source; tmpPath is unused by
the claims. -/
structure VLLMCacheM where
  rootPath : String
  count : Nat
  tritonCache : Option TritonCacheM
  allMetadata : List VLLMCacheMetadataM
deriving DecidableEq

/-- One directory entry of torch_compile_cache as DetectVLLMCache sees it:
its name, whether it is a directory, and the outcome of locating and
detecting the nested triton_cache under it (none embeds every failure:
walk error, no triton_cache directory, path missing, DetectTritonCache
returning nil). -/
structure TorchEntry where
  name : String
  isDir : Bool
  innerCache : Option TritonCacheM
deriving DecidableEq

/-- The filesystem facts DetectVLLMCache (vllm.go lines 45-137) observes:
whether the initial walk succeeded, whether it found vLLM markers, whether
torch_compile_cache exists, whether ReadDir succeeded, and its entries in
ReadDir order. -/
structure VLLMDirModel where
  walkOk : Bool
  found : Bool
  torchDirExists : Bool
  readDirOk : Bool
  entries : List TorchEntry
deriving DecidableEq

/-- Loop body of DetectVLLMCache over torch_compile_cache entries
(vllm.go lines 83-124): skip non-directories; count each directory;
on successful detection overwrite the single tc variable and append the
group metadata. -/
def detectStep (acc : Nat × Option TritonCacheM × List VLLMCacheMetadataM)
    (e : TorchEntry) : Nat × Option TritonCacheM × List VLLMCacheMetadataM :=
  if e.isDir then
    match e.innerCache with
    | none => (acc.1 + 1, acc.2.1, acc.2.2)
    | some tc =>
      (acc.1 + 1, some tc,
        acc.2.2 ++ [{ vllmHash := e.name, tritonCacheEntries := tc.allMetadata }])
  else acc

/-- DetectVLLMCache (vllm.go lines 45-137). -/
def DetectVLLMCache (cacheDir : String) (d : VLLMDirModel) : Option VLLMCacheM :=
  if !d.walkOk then none
  else if !d.found then none
  else if !d.torchDirExists then none
  else
    let st := if d.readDirOk then d.entries.foldl detectStep (0, none, [])
              else ((0 : Nat), (none : Option TritonCacheM), ([] : List VLLMCacheMetadataM))
    some { rootPath := cacheDir, count := st.1, tritonCache := st.2.1
         , allMetadata := st.2.2 }

/-- VLLMCache.Summary (vllm.go lines 150-176): builds a summary from
tritonCache.allMetadata when tritonCache is non-nil and non-empty, then
JSON-marshals it; marshalling is embedded as the structured value itself,
none standing for the JSON null of a nil summary pointer. -/
def VLLMCacheM.summary (v : VLLMCacheM) : Option (List SummaryGroup) :=
  match v.tritonCache with
  | some tc =>
    if 0 < tc.allMetadata.length then some (buildTritonSummary tc.allMetadata)
    else none
  | none => none

/-- The last successfully detected inner Triton cache among the
torch_compile_cache entries, threading an accumulator exactly as the tc
variable of DetectVLLMCache does. -/
def lastInnerFrom (t : Option TritonCacheM) : List TorchEntry → Option TritonCacheM
  | [] => t
  | e :: rest =>
    lastInnerFrom
      (if e.isDir then
        match e.innerCache with
        | some tc => some tc
        | none => t
      else t) rest

def lastInner (es : List TorchEntry) : Option TritonCacheM :=
  lastInnerFrom none es

def summaryOfLast (t : Option TritonCacheM) : Option (List SummaryGroup) :=
  match t with
  | some tc =>
    if 0 < tc.allMetadata.length then some (buildTritonSummary tc.allMetadata)
    else none
  | none => none

/-! ## Package cache: vLLM layer extraction
(src/mcv/pkg/cache/vllm.go lines 210-296, constants.go) -/

def MCVVLLMCacheDir : String := "io.vllm.cache"

inductive TarType
  | reg
  | dir
  | symlink
  | device
  | other
deriving DecidableEq

structure TarHeader where
  name : String
  typeflag : TarType
  mode : Nat
deriving DecidableEq

inductive WriteOp
  | mkdirAll (path : String) (mode : Nat)
  | writeFile (path : String) (mode : Nat)
deriving DecidableEq

/-- strings.TrimPrefix. -/
def trimPrefixStr (s p : String) : String :=
  if s.startsWith p then s.drop p.length else s

/-- Collapse repeated path separators (the part of filepath.Join cleaning
that the joined paths here can exercise; dot segments do not occur). -/
def cleanSlashes (s : String) : String :=
  match s.splitOn "/" with
  | [] => s
  | h :: t =>
    h ++ String.join ((t.filter (fun seg => seg ≠ "")).map (fun seg => "/" ++ seg))

/-- filepath.Join of two segments. -/
def joinPath (a b : String) : String := cleanSlashes (a ++ "/" ++ b)

/-- filepath.Dir: everything before the final separator, or dot. -/
def dirOf (p : String) : String :=
  let parts := p.splitOn "/"
  if parts.length ≤ 1 then "." else String.intercalate "/" parts.dropLast

/-- The extraction roots, configured at runtime via package constants
(ExtractCacheDir, ExtractManifestDir are mutable configuration, so they
are parameters of the embedding). -/
structure ExtractConfig where
  extractCacheDir : String
  extractManifestDir : String
deriving DecidableEq

def stringInSlice (s : String) (l : List String) : Bool := l.contains s

/-- The output path an entry of the layer tar is written to: cache-prefixed
entries under extractCacheDir, manifest entries under extractManifestDir,
with the prefix stripped. -/
def outPath (cfg : ExtractConfig) (h : TarHeader) : String :=
  if h.name.startsWith MCVVLLMCacheDir then
    joinPath cfg.extractCacheDir (trimPrefixStr h.name MCVVLLMCacheDir)
  else
    joinPath cfg.extractManifestDir (trimPrefixStr h.name "io.vllm.manifest/")

structure EntryResult where
  ops : List WriteOp
  dirs : List String
  debugSkipped : Bool
deriving DecidableEq

/-- Loop body of ExtractVLLMCacheDirectory (vllm.go lines 228-277) for one
tar header: entries matching neither recognized path produce nothing; a
cache-prefixed entry whose remainder is empty is passed over; otherwise
the parent directory is created with mode 0755 and the entry is written
according to its type flag, unsupported flags being skipped with a debug
log.  ops is the list of filesystem writes, dirs the extractedDirs
accumulator, debugSkipped whether the unsupported-type debug log fired. -/
def processEntry (cfg : ExtractConfig) (dirs0 : List String) (h : TarHeader) :
    EntryResult :=
  if !(h.name.startsWith MCVVLLMCacheDir)
      && !(h.name.startsWith "io.vllm.manifest/manifest.json") then
    { ops := [], dirs := dirs0, debugSkipped := false }
  else if h.name.startsWith MCVVLLMCacheDir
      && trimPrefixStr h.name MCVVLLMCacheDir == "" then
    { ops := [], dirs := dirs0, debugSkipped := false }
  else
    let filePath := outPath cfg h
    let dirs1 :=
      if h.name.startsWith MCVVLLMCacheDir then
        let topDir := joinPath cfg.extractCacheDir
          (dirOf (trimPrefixStr h.name MCVVLLMCacheDir))
        if stringInSlice topDir dirs0 then dirs0 else dirs0 ++ [topDir]
      else dirs0
    let base := [WriteOp.mkdirAll (dirOf filePath) 493]
    match h.typeflag with
    | TarType.dir =>
      { ops := base ++ [WriteOp.mkdirAll filePath h.mode], dirs := dirs1
      , debugSkipped := false }
    | TarType.reg =>
      { ops := base ++ [WriteOp.writeFile filePath h.mode], dirs := dirs1
      , debugSkipped := false }
    | _ => { ops := base, dirs := dirs1, debugSkipped := true }

/-- The whole tar loop of ExtractVLLMCacheDirectory: the two top-level
output roots are created once, then each header is processed in order. -/
def extractLoop (cfg : ExtractConfig) (hs : List TarHeader) :
    List WriteOp × List String :=
  hs.foldl (fun acc h =>
    let r := processEntry cfg acc.2 h
    (acc.1 ++ r.ops, r.dirs))
    ([WriteOp.mkdirAll cfg.extractCacheDir 493,
      WriteOp.mkdirAll cfg.extractManifestDir 493], [])

/-- An entry that survives both the path filter and the empty-remainder
check, i.e. one that reaches the type-flag switch. -/
def vllmRetained (h : TarHeader) : Bool :=
  (h.name.startsWith MCVVLLMCacheDir
    || h.name.startsWith "io.vllm.manifest/manifest.json")
  && !(h.name.startsWith MCVVLLMCacheDir
    && trimPrefixStr h.name MCVVLLMCacheDir == "")

/-! ## CLI front-end: flag validation (src/unnamed/part_000) -/

def exitNormal : Nat := 0
def exitExtractError : Nat := 1
def exitCreateError : Nat := 2
def exitLogError : Nat := 3

structure Flags where
  createFlag : Bool
  extractFlag : Bool
  hwInfoFlag : Bool
  gpuInfoFlag : Bool
  checkCompatFlag : Bool
  stubFlag : Bool
  imageName : String
  cacheDirName : String
deriving DecidableEq

def actionCount (f : Flags) : Nat :=
  (if f.createFlag then 1 else 0) + (if f.extractFlag then 1 else 0)
    + (if f.hwInfoFlag then 1 else 0) + (if f.gpuInfoFlag then 1 else 0)
    + (if f.checkCompatFlag then 1 else 0)

/-- validateFlagCombinations (src/unnamed/part_000 lines 144-186). -/
def validateFlagCombinations (f : Flags) : Except String Unit :=
  if 1 < actionCount f then
    Except.error "only one action flag can be specified at a time"
  else if actionCount f = 0 then
    Except.error "at least one action must be specified"
  else if (f.createFlag || f.extractFlag || f.checkCompatFlag) && f.imageName = "" then
    Except.error "--image is required when using --create, --extract, or --check-compat"
  else if f.createFlag && f.cacheDirName = "" then
    Except.error "--dir is required when using --create"
  else if f.stubFlag && !(f.hwInfoFlag || f.gpuInfoFlag) then
    Except.error "--stub can only be used with --hw-info or --gpu-info"
  else Except.ok ()

/-- What a run of the command dispatches to; the handlers themselves exit
the process on their own and are collaborators outside this embedding. -/
inductive Outcome
  | exited (code : Nat)
  | ranHWInfo
  | ranGPUInfo
  | ranCheckCompat (image : String)
  | ranCreate (image : String) (dir : String)
  | ranExtract (image : String) (dir : String)
  | showedHelp
deriving DecidableEq

/-- handleRunCommand (src/unnamed/part_000 lines 105-142): a validation
error is logged and the process exits with exitLogError; otherwise the
first matching action flag dispatches. -/
def handleRunCommand (f : Flags) : Outcome :=
  match validateFlagCombinations f with
  | Except.error _ => Outcome.exited exitLogError
  | Except.ok _ =>
    if f.hwInfoFlag then Outcome.ranHWInfo
    else if f.gpuInfoFlag then Outcome.ranGPUInfo
    else if f.checkCompatFlag then Outcome.ranCheckCompat f.imageName
    else if f.createFlag then Outcome.ranCreate f.imageName f.cacheDirName
    else if f.extractFlag then Outcome.ranExtract f.imageName f.cacheDirName
    else Outcome.showedHelp

/-- The acceptance condition the spec states for flag combinations. -/
def flagsAccepted (f : Flags) : Prop :=
  actionCount f = 1
    ∧ ((f.createFlag = true ∨ f.extractFlag = true ∨ f.checkCompatFlag = true) →
        f.imageName ≠ "")
    ∧ (f.createFlag = true → f.cacheDirName ≠ "")
    ∧ (f.stubFlag = true → (f.hwInfoFlag = true ∨ f.gpuInfoFlag = true))

/-! ## Helper lemmas -/

theorem lookupKey_insertKey {α β : Type} [DecidableEq α]
    (m : List (α × β)) (k : α) (v : β) :
    lookupKey (insertKey m k v) k = some v := by
  induction m with
  | nil => simp [insertKey, lookupKey]
  | cons p rest ih =>
    by_cases h : p.1 = k
    · simp [insertKey, lookupKey, h]
    · simpa [insertKey, lookupKey, h] using ih

/-! ## Concrete fixtures used by witnesses and counterexamples -/

def dev0 : Device :=
  { name := "STUBBED AMD", devType := DeviceType.AMD, hwType := "gpu"
  , gpuInfo := some [], summaries := some [] }

def cd0 : CachedDevice :=
  { name := "STUBBED AMD", deviceType := DeviceType.AMD, hwType := "gpu"
  , tritonInfo := [], summaries := [] }

def reg0 : Registry := { registry := [(GPU, [(DeviceType.AMD, dev0)])] }

def regNVML : Registry := { registry := [(GPU, [(DeviceType.NVML, dev0)])] }

def staticCfg0 : DeviceCache := { timestamp := 0, devices := [(GPU, cd0)] }

def world0 : World :=
  { staticFile := FileState.content staticCfg0, cacheFile := FileState.absent
  , now := 0 }

/-- A world with no static config and an 11-minute-old cache snapshot. -/
def worldExpired : World :=
  { staticFile := FileState.absent
  , cacheFile := FileState.content { timestamp := 0, devices := [(GPU, cd0)] }
  , now := 660000000000 }

def worldProbe : World :=
  { staticFile := FileState.absent, cacheFile := FileState.absent, now := 5 }

def cfgEmpty : DeviceCache := { timestamp := 0, devices := [] }

def worldStaticEmpty : World :=
  { staticFile := FileState.content cfgEmpty, cacheFile := FileState.absent
  , now := 0 }

/-! ## C3: saveCache write pattern -/

/-- The write pattern the claim asserts: some temporary path, distinct from
the cache path, is written and later renamed over the cache path. -/
def writesTempThenRenames (ops : List FsOp) : Prop :=
  ∃ tmp, tmp ≠ cacheFilePath ∧
    ∃ i j, i < j ∧ ops.get? i = some (FsOp.write tmp) ∧
      ops.get? j = some (FsOp.rename tmp cacheFilePath)

theorem saveCacheOps_no_rename (devices : List (String × Device)) (s t : String) :
    FsOp.rename s t ∉ saveCacheOps devices := by
  simp [saveCacheOps]

/-- C3 counterexample: at a concrete device map, saveCache performs no
write-to-temp followed by a rename over the cache path; its trace has no
rename at all, refuting the claimed atomic write pattern. -/
theorem saveCache_no_temp_rename_cex :
    ¬ writesTempThenRenames (saveCacheOps [(GPU, dev0)]) := by
  rintro ⟨tmp, htmp, i, j, hij, hw, hr⟩
  have hmem : FsOp.rename tmp cacheFilePath ∈ saveCacheOps [(GPU, dev0)] :=
    List.get?_mem hr
  exact saveCacheOps_no_rename [(GPU, dev0)] tmp cacheFilePath hmem

/-- C3 amended: saveCache opens the cache path itself with os.Create and
encodes the snapshot directly into it; its filesystem trace is exactly a
create of the cache path followed by a write of the cache path, with no
temporary file and no rename, so the write is not atomic with respect to
readers. -/
theorem saveCache_direct_write (devices : List (String × Device)) :
    saveCacheOps devices = [FsOp.create cacheFilePath, FsOp.write cacheFilePath]
      ∧ ¬ writesTempThenRenames (saveCacheOps devices) := by
  constructor
  · rfl
  · rintro ⟨tmp, htmp, i, j, hij, hw, hr⟩
    have hmem : FsOp.rename tmp cacheFilePath ∈ saveCacheOps devices :=
      List.get?_mem hr
    exact saveCacheOps_no_rename devices tmp cacheFilePath hmem

/-! ## C9: MustRegister replaces the per-hardware-type map -/

/-- C9: registering a second, distinct device type for a hardware type that
already has one replaces the whole per-hardware-type map, so afterwards
the hardware type maps only to the new entry; a duplicate call with the
same pair is a no-op that leaves the registry unchanged. -/
theorem mustRegister_replaces (r : Registry) (a : String) (d1 d2 : DeviceType)
    (f1 f2 : Device) :
    (d1 ≠ d2 → regLookup r a d1 = some f1 → regLookup r a d2 = none →
      lookupKey (r.mustRegister a d2 f2).registry a = some [(d2, f2)])
    ∧ (regLookup r a d2 = some f1 → r.mustRegister a d2 f2 = r) := by
  constructor
  · intro hne h1 h2
    unfold Registry.mustRegister
    rw [h2]
    simpa using lookupKey_insertKey r.registry a [(d2, f2)]
  · intro h2
    unfold Registry.mustRegister
    rw [h2]
    rfl

/-- C9 witness: a registry mapping gpu to NVML; registering AMD leaves gpu
mapping only to AMD. -/
theorem mustRegister_replaces_witness :
    lookupKey (regNVML.mustRegister GPU DeviceType.AMD dev0).registry GPU
      = some [(DeviceType.AMD, dev0)] :=
  (mustRegister_replaces regNVML GPU DeviceType.NVML DeviceType.AMD dev0 dev0).1
    (by decide) rfl rfl

/-! ## C10: static config short-circuits Startup -/

/-- C10: when the static device-config file loads but either misses the
requested hardware type or records a device type with no registered
startup function, Startup returns nil at once: the device-cache file is
never read, no probe runs, and the world is unchanged. -/
theorem startup_static_short_circuit (r : Registry) (w : World) (a : String)
    (cfg : DeviceCache)
    (hs : loadStaticConfig w.staticFile = Except.ok cfg)
    (hmiss : lookupKey cfg.devices a = none
      ∨ ∃ cd, lookupKey cfg.devices a = some cd
          ∧ regLookup r a cd.deviceType = none) :
    Startup r w a = { device := none, world := w, effects := [Effect.readStatic] } := by
  unfold Startup
  rw [hs]
  rcases hmiss with h | ⟨cd, hcd, hreg⟩
  · simp [h]
  · simp [hcd, hreg]

/-- C10 witness: static config decodes but lists no gpu entry; Startup on a
populated registry returns none without touching cache or probe. -/
theorem startup_static_short_circuit_witness :
    Startup reg0 worldStaticEmpty GPU
      = { device := none, world := worldStaticEmpty
        , effects := [Effect.readStatic] } :=
  startup_static_short_circuit reg0 worldStaticEmpty GPU cfgEmpty rfl
    (Or.inl rfl)

/-! ## C1: the three-step resolution priority of Startup -/

/-- C1: Startup resolves with a fixed three-step priority.  (a) If the
static configuration file loads, its contents alone decide the result, the
cache file is never read and the world is unchanged.  (b) Otherwise, on a
fresh cache hit whose recorded device type has a registered startup
function, that device is returned with no probe and no write.  (c)
Otherwise a live probe over the registered backends returns the first
startup's device and writes it back to the device-cache file. -/
theorem startup_priority (r : Registry) (w : World) (a : String) :
    (∀ cfg, loadStaticConfig w.staticFile = Except.ok cfg →
      (Startup r w a).device
          = (lookupKey cfg.devices a).bind (fun cd => regLookup r a cd.deviceType)
        ∧ (Startup r w a).world = w
        ∧ (Startup r w a).effects = [Effect.readStatic])
    ∧ (∀ m c cd dev, loadStaticConfig w.staticFile = Except.error m →
        loadCache w.cacheFile w.now = Except.ok c →
        lookupKey c.devices a = some cd →
        regLookup r a cd.deviceType = some dev →
        Startup r w a = { device := some dev, world := w
                        , effects := [Effect.readStatic, Effect.readCache] })
    ∧ (∀ m d dev rest, loadStaticConfig w.staticFile = Except.error m →
        ¬ cacheHit r w a →
        regInner r a = (d, dev) :: rest →
        Startup r w a
          = { device := some dev
            , world := { w with cacheFile :=
                FileState.content (saveCacheValue w.now [(a, dev)]) }
            , effects := [Effect.readStatic, Effect.readCache,
                Effect.probe d, Effect.writeCache] }) := by
  refine ⟨?_, ?_, ?_⟩
  · intro cfg hs
    unfold Startup
    rw [hs]
    cases hlk : lookupKey cfg.devices a with
    | none => simp [hlk]
    | some cd =>
      cases hrg : regLookup r a cd.deviceType with
      | none => simp [hlk, hrg]
      | some dev => simp [hlk, hrg]
  · intro m c cd dev hs hc hcd hrg
    unfold Startup
    rw [hs, hc]
    simp [hcd, hrg]
  · intro m d dev rest hs hmiss hinner
    unfold Startup
    rw [hs]
    have hprobe : probeStep r w a [Effect.readStatic, Effect.readCache]
        = { device := some dev
          , world := { w with cacheFile :=
              FileState.content (saveCacheValue w.now [(a, dev)]) }
          , effects := [Effect.readStatic, Effect.readCache,
              Effect.probe d, Effect.writeCache] } := by
      unfold probeStep
      rw [hinner]
      rfl
    cases hc : loadCache w.cacheFile w.now with
    | error e => simpa [hc] using hprobe
    | ok c =>
      cases hcd : lookupKey c.devices a with
      | none => simpa [hcd] using hprobe
      | some cd =>
        cases hrg : regLookup r a cd.deviceType with
        | none => simpa [hcd, hrg] using hprobe
        | some dv => exact absurd ⟨c, cd, dv, hc, hcd, hrg⟩ hmiss

/-- C1 witness: with no static config, an unusable cache and a registered
AMD backend, Startup probes, returns the backend's device and writes the
cache file. -/
theorem startup_priority_witness :
    Startup reg0 worldProbe GPU
      = { device := some dev0
        , world := { worldProbe with
            cacheFile := FileState.content (saveCacheValue worldProbe.now [(GPU, dev0)]) }
        , effects := [Effect.readStatic, Effect.readCache,
            Effect.probe DeviceType.AMD, Effect.writeCache] } :=
  (startup_priority reg0 worldProbe GPU).2.2 CacheMiss.notPresent
    DeviceType.AMD dev0 [] rfl
    (by rintro ⟨c, cd, dv, hc, hcd, hrg⟩; simp [loadCache, worldProbe] at hc)
    rfl

/-! ## C2: device-cache TTL -/

/-- C2: loadCache returns the decoded snapshot exactly when the cache file
exists, decodes, and its timestamp is within the 10-minute TTL of the
current time; a snapshot more than 10 minutes in the past yields the
expired miss; and a subsequent Startup (with no static config and a
registered backend) re-probes and overwrites the file. -/
theorem device_cache_ttl (w : World) (r : Registry) (a : String) :
    ((∃ c, loadCache w.cacheFile w.now = Except.ok c
        ∧ w.cacheFile = FileState.content c)
      ↔ (∃ c, w.cacheFile = FileState.content c
          ∧ w.now - c.timestamp ≤ cacheTTL))
    ∧ (∀ c, w.cacheFile = FileState.content c → cacheTTL < w.now - c.timestamp →
        loadCache w.cacheFile w.now = Except.error CacheMiss.expired)
    ∧ (∀ m c d dev rest, loadStaticConfig w.staticFile = Except.error m →
        w.cacheFile = FileState.content c → cacheTTL < w.now - c.timestamp →
        regInner r a = (d, dev) :: rest →
        (Startup r w a).device = some dev
          ∧ (Startup r w a).world.cacheFile
              = FileState.content (saveCacheValue w.now [(a, dev)])) := by
  refine ⟨?_, ?_, ?_⟩
  · constructor
    · rintro ⟨c, hok, hfs⟩
      refine ⟨c, hfs, ?_⟩
      rw [hfs] at hok
      by_cases h : cacheTTL < w.now - c.timestamp
      · simp [loadCache, h] at hok
      · omega
    · rintro ⟨c, hfs, h⟩
      refine ⟨c, ?_, hfs⟩
      rw [hfs]
      simp [loadCache]
      omega
  · intro c hfs h
    rw [hfs]
    simp [loadCache, h]
  · intro m c d dev rest hs hfs h hinner
    have hexp : loadCache w.cacheFile w.now = Except.error CacheMiss.expired := by
      rw [hfs]; simp [loadCache, h]
    have hmiss : ¬ cacheHit r w a := by
      rintro ⟨c2, cd2, dv2, hc2, _, _⟩
      rw [hexp] at hc2
      exact Except.noConfusion hc2
    have hres := (startup_priority r w a).2.2 m d dev rest hs hmiss hinner
    rw [hres]
    exact ⟨rfl, rfl⟩

/-- C2 witness: a snapshot written 11 minutes before now misses as expired
and the following Startup probes the registered AMD backend and rewrites
the cache file with a fresh snapshot. -/
theorem device_cache_ttl_witness :
    loadCache worldExpired.cacheFile worldExpired.now
        = Except.error CacheMiss.expired
      ∧ (Startup reg0 worldExpired GPU).device = some dev0
      ∧ (Startup reg0 worldExpired GPU).world.cacheFile
          = FileState.content (saveCacheValue worldExpired.now [(GPU, dev0)]) := by
  have h2 := (device_cache_ttl worldExpired reg0 GPU).2.1
    { timestamp := 0, devices := [(GPU, cd0)] } rfl (by decide)
  have h3 := (device_cache_ttl worldExpired reg0 GPU).2.2 CacheMiss.notPresent
    { timestamp := 0, devices := [(GPU, cd0)] } DeviceType.AMD dev0 [] rfl rfl
    (by decide) rfl
  exact ⟨h2, h3.1, h3.2⟩

/-! ## C7: which Startup paths write the device cache -/

/-- C7 counterexample: with a static config naming the gpu device and an
absent cache file, Startup returns a device yet afterwards the device
cache file is still absent, containing no snapshot at all; the claimed
invariant fails on the static-config path (and likewise nothing is
written on a cache hit). -/
theorem startup_writes_cache_cex :
    (Startup reg0 world0 GPU).device = some dev0
      ∧ (Startup reg0 world0 GPU).world.cacheFile = FileState.absent
      ∧ ∀ c, (Startup reg0 world0 GPU).world.cacheFile ≠ FileState.content c := by
  refine ⟨by decide, by decide, ?_⟩
  intro c h
  have habs : (Startup reg0 world0 GPU).world.cacheFile = FileState.absent := by
    decide
  rw [habs] at h
  exact FileState.noConfusion h

/-- C7 amended: Startup writes the device-cache file only on the live-probe
path; there, when the probed device's GPU-info and summary calls succeed,
the file afterwards holds a snapshot carrying an entry for the requested
hardware type whose timestamp is the probe time (hence within one second
of return).  The static-config path and the cache-hit path leave the
world, and so the cache file, unchanged. -/
theorem startup_cache_writeback (r : Registry) (w : World) (a : String) :
    (∀ cfg, loadStaticConfig w.staticFile = Except.ok cfg →
      (Startup r w a).world = w)
    ∧ (∀ m c cd dev, loadStaticConfig w.staticFile = Except.error m →
        loadCache w.cacheFile w.now = Except.ok c →
        lookupKey c.devices a = some cd →
        regLookup r a cd.deviceType = some dev →
        (Startup r w a).world = w)
    ∧ (∀ m d dev rest ti su, loadStaticConfig w.staticFile = Except.error m →
        ¬ cacheHit r w a →
        regInner r a = (d, dev) :: rest →
        dev.gpuInfo = some ti → dev.summaries = some su →
        (Startup r w a).device = some dev
          ∧ (Startup r w a).world.cacheFile
              = FileState.content
                  { timestamp := w.now
                  , devices := [(a, mkCachedDevice dev ti su)] }) := by
  refine ⟨?_, ?_, ?_⟩
  · intro cfg hs
    exact ((startup_priority r w a).1 cfg hs).2.1
  · intro m c cd dev hs hc hcd hrg
    rw [(startup_priority r w a).2.1 m c cd dev hs hc hcd hrg]
  · intro m d dev rest ti su hs hmiss hinner hgi hsu
    have hres := (startup_priority r w a).2.2 m d dev rest hs hmiss hinner
    rw [hres]
    refine ⟨rfl, ?_⟩
    simp [saveCacheValue, hgi, hsu]

/-- C7 amended witness: the probe path at a concrete world writes a fresh
snapshot for gpu stamped with the probe time. -/
theorem startup_cache_writeback_witness :
    (Startup reg0 worldProbe GPU).device = some dev0
      ∧ (Startup reg0 worldProbe GPU).world.cacheFile
          = FileState.content
              { timestamp := worldProbe.now
              , devices := [(GPU, mkCachedDevice dev0 [] [])] } :=
  (startup_cache_writeback reg0 worldProbe GPU).2.2 CacheMiss.notPresent
    DeviceType.AMD dev0 [] [] [] rfl
    (by rintro ⟨c, cd, dv, hc, hcd, hrg⟩; simp [loadCache, worldProbe] at hc)
    rfl rfl rfl

/-! ## C4: AMD is preferred over ROCM in the GPU registry -/

/-- One registration attempt for the GPU hardware type; a failed
addDeviceInterface leaves the registry unchanged (the ROCM branch errors
out before any mutation). -/
def addGPU (r : Registry) (call : DeviceType × Device) : Registry :=
  match addDeviceInterface r call.1 GPU call.2 with
  | Except.ok r2 => r2
  | Except.error _ => r

/-- The registry after a sequence of GPU registration attempts, starting
from newRegistry (the empty registry). -/
def runGPUSeq (calls : List (DeviceType × Device)) : Registry :=
  calls.foldl addGPU { registry := [] }

/-- Shape invariant of registries built by GPU-only registration: the outer
map is empty or holds only the gpu key, whose inner map has at most one
entry (MustRegister installs fresh singleton inner maps). -/
def regOK (r : Registry) : Prop :=
  r.registry = [] ∨ r.registry = [(GPU, [])]
    ∨ ∃ p : DeviceType × Device, r.registry = [(GPU, [p])]

theorem regOK_addGPU (r : Registry) (c : DeviceType × Device) (h : regOK r) :
    regOK (addGPU r c) := by
  obtain ⟨d, f⟩ := c
  rcases h with h | h | ⟨p, h⟩
  · cases d <;>
      simp [addGPU, addDeviceInterface, Registry.mustRegister, regLookup,
        regInner, lookupKey, insertKey, Registry.unregister, unregAux, h,
        regOK]
  · cases d <;>
      simp [addGPU, addDeviceInterface, Registry.mustRegister, regLookup,
        regInner, lookupKey, insertKey, Registry.unregister, unregAux, h,
        eraseKey, regOK]
  · obtain ⟨d0, g⟩ := p
    cases d <;> cases d0 <;>
      simp [addGPU, addDeviceInterface, Registry.mustRegister, regLookup,
        regInner, lookupKey, insertKey, Registry.unregister, unregAux, h,
        eraseKey, regOK]

theorem regOK_runGPUSeq (calls : List (DeviceType × Device)) :
    regOK (runGPUSeq calls) := by
  have haux : ∀ (cs : List (DeviceType × Device)) (r : Registry), regOK r →
      regOK (cs.foldl addGPU r) := by
    intro cs
    induction cs with
    | nil => intro r h; exact h
    | cons c rest ih => intro r h; exact ih (addGPU r c) (regOK_addGPU r c h)
  exact haux calls { registry := [] } (Or.inl rfl)

theorem addGPU_amd_kills_rocm (r : Registry) (f : Device) (h : regOK r) :
    lookupKey (regInner (addGPU r (DeviceType.AMD, f)) GPU) DeviceType.ROCM
      = none := by
  rcases h with h | h | ⟨⟨d0, g⟩, h⟩
  · simp [addGPU, addDeviceInterface, Registry.mustRegister, regLookup,
      regInner, lookupKey, insertKey, Registry.unregister, unregAux, h]
  · simp [addGPU, addDeviceInterface, Registry.mustRegister, regLookup,
      regInner, lookupKey, insertKey, Registry.unregister, unregAux, h,
      eraseKey]
  · cases d0 <;>
      simp [addGPU, addDeviceInterface, Registry.mustRegister, regLookup,
        regInner, lookupKey, insertKey, Registry.unregister, unregAux, h,
        eraseKey]

/-- C4: over every sequence of GPU-hardware-type registrations, (i)
registering AMD removes any ROCM entry from the gpu map, (ii) registering
ROCM while AMD is registered fails with the source's error and changes
nothing, and (iii) the registry never holds AMD and ROCM for gpu at the
same time. -/
theorem amd_rocm_exclusive :
    (∀ calls f,
      lookupKey (regInner (addGPU (runGPUSeq calls) (DeviceType.AMD, f)) GPU)
        DeviceType.ROCM = none)
    ∧ (∀ r f, (regLookup r GPU DeviceType.AMD).isSome = true →
        addDeviceInterface r DeviceType.ROCM GPU f
          = Except.error "AMD already registered. Skipping ROCM")
    ∧ (∀ calls, ¬ ((regLookup (runGPUSeq calls) GPU DeviceType.AMD).isSome = true
        ∧ (regLookup (runGPUSeq calls) GPU DeviceType.ROCM).isSome = true)) := by
  refine ⟨?_, ?_, ?_⟩
  · intro calls f
    exact addGPU_amd_kills_rocm (runGPUSeq calls) f (regOK_runGPUSeq calls)
  · intro r f hamd
    simp [addDeviceInterface, hamd]
  · intro calls ⟨hamd, hrocm⟩
    rcases regOK_runGPUSeq calls with h | h | ⟨⟨d0, g⟩, h⟩
    · simp [regLookup, regInner, lookupKey, h] at hamd
    · simp [regLookup, regInner, lookupKey, h] at hamd
    · cases d0 <;>
        simp [regLookup, regInner, lookupKey, h] at hamd hrocm

/-- C4 witness: with AMD registered for gpu, a ROCM registration attempt
returns the source's error. -/
theorem amd_rocm_exclusive_witness :
    addDeviceInterface reg0 DeviceType.ROCM GPU dev0
      = Except.error "AMD already registered. Skipping ROCM" :=
  amd_rocm_exclusive.2.1 reg0 dev0 (by decide)

/-! ## C5: the vLLM summary comes from the last detected inner cache -/

theorem detectStep_tc (es : List TorchEntry)
    (acc : Nat × Option TritonCacheM × List VLLMCacheMetadataM) :
    (es.foldl detectStep acc).2.1 = lastInnerFrom acc.2.1 es := by
  induction es generalizing acc with
  | nil => rfl
  | cons e rest ih =>
    by_cases hd : e.isDir
    · cases hic : e.innerCache with
      | none => simp [detectStep, lastInnerFrom, hd, hic, ih]
      | some tc => simp [detectStep, lastInnerFrom, hd, hic, ih]
    · simp [detectStep, lastInnerFrom, hd, ih]

/-- C5: whenever DetectVLLMCache returns a cache after reading the outer
group directory, its single tritonCache field is the inner Triton cache of
the last group whose detection succeeded, and the compatibility summary it
serializes is a function of that last inner cache's metadata alone. -/
theorem vllm_summary_from_last (cacheDir : String) (d : VLLMDirModel)
    (v : VLLMCacheM)
    (hread : d.readDirOk = true)
    (hdet : DetectVLLMCache cacheDir d = some v) :
    v.tritonCache = lastInner d.entries
      ∧ v.summary = summaryOfLast (lastInner d.entries) := by
  unfold DetectVLLMCache at hdet
  by_cases hw : d.walkOk = true
  · by_cases hf : d.found = true
    · by_cases ht : d.torchDirExists = true
      · simp [hw, hf, ht, hread] at hdet
        have htc : v.tritonCache = lastInner d.entries := by
          rw [← hdet]
          simpa [lastInner] using detectStep_tc d.entries (0, none, [])
        refine ⟨htc, ?_⟩
        rw [VLLMCacheM.summary, htc]
        rfl
      · simp [hw, hf, ht] at hdet
    · simp [hw, hf] at hdet
  · simp [hw] at hdet

def km1 : KernelMetadataM :=
  { arch := "gfx90a", backend := "hip", warpSize := 64, ptxVersion := 0 }

def km2 : KernelMetadataM :=
  { arch := "sm_80", backend := "cuda", warpSize := 32, ptxVersion := 80 }

def tcA : TritonCacheM := { allMetadata := [km1] }

def tcB : TritonCacheM := { allMetadata := [km2] }

/-- A wrapped cache with two outer groups carrying conflicting inner
compatibility tuples. -/
def vdir0 : VLLMDirModel :=
  { walkOk := true, found := true, torchDirExists := true, readDirOk := true
  , entries := [ { name := "hashA", isDir := true, innerCache := some tcA }
               , { name := "hashB", isDir := true, innerCache := some tcB } ] }

/-- The VLLMCache value DetectVLLMCache produces on vdir0. -/
def vllm0 : VLLMCacheM :=
  { rootPath := "/root/cache", count := 2, tritonCache := some tcB
  , allMetadata := [ { vllmHash := "hashA", tritonCacheEntries := [km1] }
                   , { vllmHash := "hashB", tritonCacheEntries := [km2] } ] }

/-- C5 witness: on two conflicting groups the emitted summary is exactly
the summary of the second (last) group's metadata. -/
theorem vllm_summary_from_last_witness :
    vllm0.tritonCache = lastInner vdir0.entries
      ∧ vllm0.summary = summaryOfLast (lastInner vdir0.entries) :=
  vllm_summary_from_last "/root/cache" vdir0 vllm0 rfl (by decide)

/-! ## C6: the extraction loop writes only recognized entries -/

/-- C6: per tar entry, (i) an entry whose path matches neither the vLLM
cache path nor the vLLM manifest path produces no filesystem write at all,
and (ii) a retained entry whose type flag is neither regular file nor
directory fires the unsupported-type debug log and contributes no write
beyond the 0755 parent-directory creation. -/
theorem vllm_extract_filter (cfg : ExtractConfig) (dirs0 : List String)
    (h : TarHeader) :
    (h.name.startsWith MCVVLLMCacheDir = false →
      h.name.startsWith "io.vllm.manifest/manifest.json" = false →
      processEntry cfg dirs0 h
        = { ops := [], dirs := dirs0, debugSkipped := false })
    ∧ (vllmRetained h = true →
        h.typeflag ≠ TarType.reg → h.typeflag ≠ TarType.dir →
        (processEntry cfg dirs0 h).debugSkipped = true
          ∧ (processEntry cfg dirs0 h).ops
              = [WriteOp.mkdirAll (dirOf (outPath cfg h)) 493]) := by
  constructor
  · intro h1 h2
    simp [processEntry, h1, h2]
  · intro hr hreg hdir
    unfold vllmRetained at hr
    unfold processEntry
    by_cases h1 : h.name.startsWith MCVVLLMCacheDir = true
    · by_cases h2 : trimPrefixStr h.name MCVVLLMCacheDir = ""
      · simp [h1, h2] at hr
      · rw [if_neg (by simp [h1]), if_neg (by simp [h1, h2])]
        cases htf : h.typeflag <;> simp_all
    · have h1f : h.name.startsWith MCVVLLMCacheDir = false := by
        simpa using h1
      have h2 : h.name.startsWith "io.vllm.manifest/manifest.json" = true := by
        simp [h1f] at hr
        exact hr
      rw [if_neg (by simp [h2]), if_neg (by simp [h1f])]
      cases htf : h.typeflag <;> simp_all

/-- C6 witness: an entry outside both recognized paths produces no write. -/
theorem vllm_extract_filter_witness :
    processEntry { extractCacheDir := "/cache", extractManifestDir := "/manifest" }
        [] { name := "etc/passwd", typeflag := TarType.reg, mode := 420 }
      = { ops := [], dirs := [], debugSkipped := false } :=
  (vllm_extract_filter
    { extractCacheDir := "/cache", extractManifestDir := "/manifest" } []
    { name := "etc/passwd", typeflag := TarType.reg, mode := 420 }).1
    (by decide) (by decide)

/-! ## C8: CLI flag validation -/

theorem validate_ok_iff (f : Flags) :
    validateFlagCombinations f = Except.ok () ↔ flagsAccepted f := by
  obtain ⟨cf, ef, hf, gf, ccf, sf, img, dir⟩ := f
  unfold validateFlagCombinations flagsAccepted actionCount
  by_cases himg : img = "" <;> by_cases hdir : dir = "" <;>
    cases cf <;> cases ef <;> cases hf <;> cases gf <;> cases ccf <;>
    cases sf <;> simp_all

/-- C8: a flag combination is accepted exactly when one action flag is set,
the image name is non-empty for create, extract and check-compat, the
cache directory is non-empty for create, and stub accompanies hw-info or
gpu-info; every other combination makes handleRunCommand exit with the
configuration-error code 3. -/
theorem validate_flags_iff (f : Flags) :
    (validateFlagCombinations f = Except.ok () ↔ flagsAccepted f)
    ∧ (handleRunCommand f = Outcome.exited exitLogError ↔ ¬ flagsAccepted f) := by
  refine ⟨validate_ok_iff f, ?_⟩
  rw [← validate_ok_iff f]
  unfold handleRunCommand
  cases hv : validateFlagCombinations f with
  | error e => simp [hv]
  | ok u =>
    cases u
    by_cases h1 : f.hwInfoFlag <;> by_cases h2 : f.gpuInfoFlag <;>
      by_cases h3 : f.checkCompatFlag <;> by_cases h4 : f.createFlag <;>
      by_cases h5 : f.extractFlag <;> simp [h1, h2, h3, h4, h5]

end MCU
